import Mathlib

/-!
Verification development for the console calendar assistant in `proyecto.py`.

The program interprets Spanish natural-language sentences, classifies them
as create / list / unknown requests, extracts event slots (location,
duration, start, title) with regular expressions, and drives an interactive
create flow.  We embed the program shallowly: Python strings are `List Char`,
the concrete regular expressions of the source are implemented as executable
character-level matchers with the same leftmost/greedy/backtracking
behaviour, and the external `dateparser` library (the temporal expression
resolver) is abstracted as a function parameter `Resolver`.

The configured zone is America/Guatemala, a fixed UTC-6 offset with no
daylight saving, so aware-datetime arithmetic in the source coincides with
wall-clock calendar arithmetic; `DateTime` below models the local wall
clock (year, month, day, hour, minute, second).
-/

/-- Python strings, modelled as lists of characters. -/
abbrev Text := List Char

/-- Convert a Lean string literal into the `Text` model. -/
def toL (s : String) : Text := s.toList

/-- Python whitespace (`str.strip`, regex class backslash-s), ASCII part:
space, tab, newline, carriage return, vertical tab, form feed. -/
def isSpaceC (c : Char) : Bool :=
  c.toNat = 32 || c.toNat = 9 || c.toNat = 10 || c.toNat = 13 || c.toNat = 11 || c.toNat = 12

/-- ASCII decimal digit, the regex class backslash-d restricted to ASCII. -/
def isDigitC (c : Char) : Bool := decide ('0' ≤ c ∧ c ≤ '9')

/-- Regex word character (backslash-w), restricted to the repertoire of the
program's Spanish inputs: ASCII letters, digits, underscore and the Spanish
letters with diacritics.  (Python uses full Unicode word classes; only these
characters occur in the texts the program handles.) -/
def isWordC (c : Char) : Bool :=
  decide (('a' ≤ c ∧ c ≤ 'z') ∨ ('A' ≤ c ∧ c ≤ 'Z') ∨ ('0' ≤ c ∧ c ≤ '9') ∨ c = '_' ∨
    c = 'ñ' ∨ c = 'Ñ' ∨ c = 'á' ∨ c = 'é' ∨ c = 'í' ∨ c = 'ó' ∨ c = 'ú' ∨
    c = 'Á' ∨ c = 'É' ∨ c = 'Í' ∨ c = 'Ó' ∨ c = 'Ú' ∨ c = 'ü' ∨ c = 'Ü')

/-- Python `str.lower` on the character repertoire of the program. -/
def lowerChar (c : Char) : Char :=
  if 'A' ≤ c ∧ c ≤ 'Z' then Char.ofNat (c.toNat + 32)
  else if c = 'Á' then 'á' else if c = 'É' then 'é' else if c = 'Í' then 'í'
  else if c = 'Ó' then 'ó' else if c = 'Ú' then 'ú' else if c = 'Ñ' then 'ñ'
  else if c = 'Ü' then 'ü' else c

/-- Python `str.lower`. -/
def lower (l : Text) : Text := l.map lowerChar

/-- Python `str.strip()`: drop whitespace from both ends. -/
def strip (l : Text) : Text :=
  ((l.dropWhile isSpaceC).reverse.dropWhile isSpaceC).reverse

/-- `hasPre p l` is Python `l.startswith(p)` (exact characters). -/
def hasPre : Text → Text → Bool
  | [], _ => true
  | _ :: _, [] => false
  | p :: ps, c :: cs => (p == c) && hasPre ps cs

/-- Case-insensitive version of `hasPre`, for `re.IGNORECASE` matching. -/
def ihasPre : Text → Text → Bool
  | [], _ => true
  | _ :: _, [] => false
  | p :: ps, c :: cs => (lowerChar p == lowerChar c) && ihasPre ps cs

/-- `subStr p l` is Python `p in l` (substring containment). -/
def subStr (p : Text) : Text → Bool
  | [] => hasPre p []
  | c :: rest => hasPre p (c :: rest) || subStr p rest

/-- Take exactly `k` leading ASCII digits, returning them and the remainder;
fails if fewer than `k` digits are available. -/
def grabDigits : Nat → Text → Option (Text × Text)
  | 0, l => some ([], l)
  | _ + 1, [] => none
  | k + 1, c :: cs =>
    if isDigitC c then (grabDigits k cs).map (fun p => (c :: p.1, p.2)) else none

/-- Numeric value of a list of ASCII digits. -/
def digitsVal (l : Text) : Nat := l.foldl (fun a c => a * 10 + (c.toNat - 48)) 0

/-- Attempt of the pattern `(\d{1,k})\s*UNIT` anchored at the current
position, trying the digit-group length from `k` down to 1 exactly as the
greedy quantifier with backtracking does. -/
def tryNumUnit (unit : Text) : Nat → Text → Option Nat
  | 0, _ => none
  | k + 1, l =>
    match grabDigits (k + 1) l with
    | some p =>
      if ihasPre unit (p.2.dropWhile isSpaceC) then some (digitsVal p.1)
      else tryNumUnit unit k l
    | none => tryNumUnit unit k l

/-- `re.search` of `(\d{1,kmax})\s*UNIT` (case-insensitive): leftmost
position wins, greedy digit group. -/
def searchNumUnit (unit : Text) (kmax : Nat) : Text → Option Nat
  | [] => none
  | c :: rest => (tryNumUnit unit kmax (c :: rest)) <|> searchNumUnit unit kmax rest

/-- `re.search(r"(\d{1,3})\s*min", text, re.IGNORECASE)`, returning the
numeric value of group 1. -/
def searchMin (t : Text) : Option Nat := searchNumUnit (toL ("min")) 3 t

/-- `re.search(r"(\d{1,2})\s*hora", text, re.IGNORECASE)`, returning the
numeric value of group 1. -/
def searchHora (t : Text) : Option Nat := searchNumUnit (toL ("hora")) 2 t

/-- Character admitted by the location capture class `[^.,\n]`. -/
def locChar (c : Char) : Bool := !(c == '.' || c == ',' || c == '\n')

/-- After the literal `en`, match `\s+([^.,\n]+)` with the greedy
`\s+` backtracking from `k` whitespace characters down to 1; returns the
capture group. -/
def locAfterEn : Nat → Text → Option Text
  | 0, _ => none
  | k + 1, r =>
    let g := (r.drop (k + 1)).takeWhile locChar
    if g = [] then locAfterEn k r else some g

/-- Scan for the leftmost match of `\ben\s+([^.,\n]+)` (case-insensitive);
`pw` records whether the previous character is a word character, which
decides the word boundary. -/
def searchLocAux : Bool → Text → Option Text
  | _, [] => none
  | pw, c :: rest =>
    (if !pw && ihasPre (toL ("en")) (c :: rest) then
      locAfterEn ((((c :: rest).drop 2).takeWhile isSpaceC).length) ((c :: rest).drop 2)
     else none)
    <|> searchLocAux (isWordC c) rest

/-- The location slot: group 1 of `\ben\s+([^.,\n]+)`, stripped
(source line 111-113). -/
def extractLoc (t : Text) : Option Text := (searchLocAux false t).map strip

/-- `$` of a non-MULTILINE Python regex: end of string, or just before a
single trailing newline. -/
def dollarOK : Text → Bool
  | [] => true
  | [c] => c == '\n'
  | _ => false

/-- Match `(.+)$` against `rest`: `.` excludes newlines and is greedy;
no shorter match can satisfy `$`, so the maximal run is the only
candidate. -/
def dotPlusEnd (rest : Text) : Option Text :=
  let u := rest.takeWhile (fun c => !(c == '\n'))
  if u = [] then none
  else if dollarOK (rest.drop u.length) then some u else none

/-- After a connector word, match `\s+(.+)$`, backtracking the greedy
`\s+` from `k` whitespace characters down to 1; returns group 2. -/
def titleAfterConn : Nat → Text → Option Text
  | 0, _ => none
  | k + 1, r => (dotPlusEnd (r.drop (k + 1))) <|> titleAfterConn k r

/-- Attempt of `(con|para|sobre)\s+(.+)$` anchored at the current
position (the word boundary has been checked by the caller). -/
def connAt (l : Text) : Option Text :=
  (if ihasPre (toL ("con")) l then
    titleAfterConn (((l.drop 3).takeWhile isSpaceC).length) (l.drop 3) else none)
  <|> (if ihasPre (toL ("para")) l then
    titleAfterConn (((l.drop 4).takeWhile isSpaceC).length) (l.drop 4) else none)
  <|> (if ihasPre (toL ("sobre")) l then
    titleAfterConn (((l.drop 5).takeWhile isSpaceC).length) (l.drop 5) else none)

/-- Scan for the leftmost match of `\b(con|para|sobre)\s+(.+)$`
(case-insensitive). -/
def searchTitleAux : Bool → Text → Option Text
  | _, [] => none
  | pw, c :: rest => (if pw then none else connAt (c :: rest)) <|> searchTitleAux (isWordC c) rest

/-- `re.search(r"\b(con|para|sobre)\s+(.+)$", text, re.IGNORECASE)`,
returning group 2. -/
def searchTitle (t : Text) : Option Text := searchTitleAux false t

/-- The title slot (source lines 128-134): the stripped connector capture
when a connector matches and its strip is non-empty (Python truthiness of
the intermediate assignment), otherwise the first 30 characters of the
stripped input. -/
def extractTitle (t : Text) : Text :=
  match searchTitle t with
  | some s => if strip s = [] then (strip t).take 30 else strip s
  | none => (strip t).take 30

/-- The duration slot (source lines 115-121): the minutes pattern is
checked first; only when it is absent is the hours pattern consulted,
scaled by 60. -/
def extractDur (t : Text) : Option Nat :=
  match searchMin t with
  | some n => some n
  | none =>
    match searchHora t with
    | some m => some (m * 60)
    | none => none

/-- Local wall-clock instant in the configured zone America/Guatemala
(fixed UTC-6, no daylight saving).  Sub-second precision is dropped: the
source zeroes microseconds at every boundary it computes. -/
structure DateTime where
  year : Nat
  month : Nat
  day : Nat
  hour : Nat
  minute : Nat
  second : Nat
deriving DecidableEq, Repr

/-- `dt.replace(hour=0, minute=0, second=0, microsecond=0)`: local
wall-clock midnight of the same calendar day. -/
def midnight (d : DateTime) : DateTime := ⟨d.year, d.month, d.day, 0, 0, 0⟩

/-- Gregorian leap year. -/
def isLeap (y : Nat) : Bool := (y % 4 == 0 && y % 100 != 0) || y % 400 == 0

/-- Days in a Gregorian month. -/
def daysInMonth (y m : Nat) : Nat :=
  if m = 2 then (if isLeap y then 29 else 28)
  else if m = 4 ∨ m = 6 ∨ m = 9 ∨ m = 11 then 30
  else 31

/-- `dt + timedelta(days=1)` on an aware datetime in a fixed-offset zone:
the next calendar day at the same wall-clock time. -/
def nextDay (d : DateTime) : DateTime :=
  if d.day < daysInMonth d.year d.month then
    ⟨d.year, d.month, d.day + 1, d.hour, d.minute, d.second⟩
  else if d.month < 12 then ⟨d.year, d.month + 1, 1, d.hour, d.minute, d.second⟩
  else ⟨d.year + 1, 1, 1, d.hour, d.minute, d.second⟩

/-- `dt + timedelta(days=n)`. -/
def addDays (d : DateTime) : Nat → DateTime
  | 0 => d
  | n + 1 => nextDay (addDays d n)

/-- `dt + timedelta(minutes=m)` in the fixed-offset zone. -/
def addMinutes (d : DateTime) (m : Nat) : DateTime :=
  let total := d.hour * 60 + d.minute + m
  addDays ⟨d.year, d.month, d.day, total % 1440 / 60, total % 1440 % 60, d.second⟩ (total / 1440)

/-- Modelled from the spec: `parse_datetime_es` delegates entirely to the
external `dateparser` library (section 4.1, Temporal Expression Resolver),
which is not part of this repository.  It is abstracted as a function from
the input text to an optional zoned timestamp; theorems that need a
particular resolver outcome take it as a hypothesis. -/
abbrev Resolver := Text → Option DateTime

/-- The mutable event draft (source lines 44-51). -/
structure PendingEvent where
  title : Option Text
  start : Option DateTime
  end_ : Option DateTime
  location : Option Text
  description : Option Text
  duration_min : Option Nat
deriving DecidableEq, Repr

/-- `parse_event_from_text` (source lines 107-136): the four slot rules are
independent; `start` is whatever the resolver returns on the full text
(aware datetimes are always truthy, so the conditional assignment is the
identity on the resolver result). -/
def parse_event_from_text (r : Resolver) (t : Text) : PendingEvent :=
  ⟨some (extractTitle t), r t, none, extractLoc t, none, extractDur t⟩

/-- `\b` holds after a match whose last character is a word character iff
the next character is absent or not a word character. -/
def bOK : Text → Bool
  | [] => true
  | c :: _ => !(isWordC c)

/-- `[:.]` of the clock-time alternative. -/
def colonDot (c : Char) : Bool := c == ':' || c == '.'

/-- Attempt of `\d{k}[:.]\d{2}` followed by `\b`, anchored here. -/
def alt1 (l : Text) (k : Nat) : Bool :=
  match grabDigits k l with
  | some p =>
    match p.2 with
    | c :: r2 =>
      colonDot c &&
        (match grabDigits 2 r2 with
         | some q => bOK q.2
         | none => false)
    | [] => false
  | none => false

/-- Attempt of `\d{k1}/\d{k2}` followed by `\b`, anchored here. -/
def alt4 (l : Text) (k1 k2 : Nat) : Bool :=
  match grabDigits k1 l with
  | some p =>
    match p.2 with
    | c :: r2 =>
      (c == '/') &&
        (match grabDigits k2 r2 with
         | some q => bOK q.2
         | none => false)
    | [] => false
  | none => false

/-- A literal word alternative followed by `\b`. -/
def wordMatch (w : Text) (l : Text) : Bool := hasPre w l && bOK (l.drop w.length)

/-- The alternation `(\d{1,2}[:.]\d{2}|am|pm|\d{1,2}/\d{1,2})` with its
trailing `\b`, anchored at the current position, with the greedy digit
quantifiers backtracking over both admissible lengths. -/
def timeAltAt (l : Text) : Bool :=
  alt1 l 2 || alt1 l 1 || wordMatch (toL ("am")) l || wordMatch (toL ("pm")) l ||
    alt4 l 2 2 || alt4 l 2 1 || alt4 l 1 2 || alt4 l 1 1

/-- Existence of a match of
`\b(\d{1,2}[:.]\d{2}|am|pm|\d{1,2}/\d{1,2})\b` (source line 212); the text
it is applied to is already lower-case. -/
def hasTimeRe : Bool → Text → Bool
  | _, [] => false
  | pw, c :: rest => (!pw && timeAltAt (c :: rest)) || hasTimeRe (isWordC c) rest

/-- The closed intent tag (source `detect_intent` return values). -/
inductive Intent
  | create
  | list_today
  | list_tomorrow
  | list_week
  | list_date
  | unknown
deriving DecidableEq, Repr

/-- `INTENT_SCHEDULE_WORDS` (source lines 189-191). -/
def INTENT_SCHEDULE_WORDS : List Text :=
  [toL ("agenda"), toL ("agendar"), toL ("programa"), toL ("programar"),
   toL ("crea"), toL ("crear"), toL ("pon"), toL ("poner"),
   toL ("haz"), toL ("hacer"), toL ("calendariza"), toL ("calendarizar")]

/-- `INTENT_LIST_WORDS` (source lines 193-195). -/
def INTENT_LIST_WORDS : List Text :=
  [toL ("qué tareas tengo"), toL ("que tareas tengo"), toL ("qué debo hacer"),
   toL ("que debo hacer"), toL ("mi agenda"), toL ("ver agenda"),
   toL ("qué hay"), toL ("que hay"), toL ("listar"), toL ("lista")]

/-- The guard of the list branch of `detect_intent` (source line 200):
a list-vocabulary phrase occurs in the lowered stripped text, or that text
starts with `agenda` and mentions `hoy` or `mañana`. -/
def listCond (t : Text) : Bool :=
  INTENT_LIST_WORDS.any (fun w => subStr w t) ||
    (hasPre (toL ("agenda")) t && (subStr (toL ("hoy")) t || subStr (toL ("mañana")) t))

/-- The sub-kind dispatch inside the list branch (source lines 201-209). -/
def listSub (r : Resolver) (t : Text) : Intent :=
  if subStr (toL ("hoy")) t then .list_today
  else if subStr (toL ("mañana")) t then .list_tomorrow
  else if subStr (toL ("semana")) t || subStr (toL ("esta semana")) t then .list_week
  else if (r t).isSome then .list_date
  else .list_today

/-- `detect_intent` (source lines 198-214). -/
def detect_intent (r : Resolver) (text : Text) : Intent :=
  let t := strip (lower text)
  if listCond t then listSub r t
  else if INTENT_SCHEDULE_WORDS.any (fun w => subStr w t) then .create
  else if hasTimeRe false t then .create
  else .unknown

/-- The half-open query range handed to the external calendar source. -/
structure TimeRange where
  startT : DateTime
  endT : DateTime
deriving DecidableEq, Repr

/-- The list branch of `main` (source lines 313-336): range boundaries for
each list sub-kind, computed from "now" in the configured zone; for
`list_date` the utterance is re-parsed and the branch produces nothing if
that parse fails. -/
def listRange (r : Resolver) (texto : Text) (now : DateTime) : Intent → Option TimeRange
  | .list_today => some ⟨midnight now, addDays (midnight now) 1⟩
  | .list_tomorrow => some ⟨midnight (addDays now 1), addDays (midnight (addDays now 1)) 1⟩
  | .list_week => some ⟨midnight now, addDays (midnight now) 7⟩
  | .list_date =>
    match r texto with
    | some dt => some ⟨midnight dt, addDays (midnight dt) 1⟩
    | none => none
  | _ => none

/-- The interactive fallback provider: the values the `pedir_*` prompt
helpers return (each is a stripped console line, `None` when empty or
invalid; `pedir_duracion` only ever returns a positive number or `None`). -/
structure Fallback where
  fecha : Option DateTime
  titulo : Option Text
  lugar : Option Text
  dur : Option Nat
deriving Repr

/-- Python truthiness of an optional string: present and non-empty. -/
def truthyStr : Option Text → Bool
  | none => false
  | some s => !(s.isEmpty)

/-- Python truthiness of an optional int: present and non-zero. -/
def truthyNat : Option Nat → Bool
  | none => false
  | some n => !(n == 0)

/-- Python truthiness of an optional datetime: datetimes are always
truthy, so only presence matters. -/
def truthyDT (o : Option DateTime) : Bool := o.isSome

/-- Python `o or d` for an optional int against the default `d`. -/
def pyOrNat (o : Option Nat) (d : Nat) : Nat :=
  match o with
  | some v => if v = 0 then d else v
  | none => d

/-- `DEFAULT_DURATION_MIN` (source line 26). -/
def DEFAULT_DURATION_MIN : Nat := 60

/-- `completar_datos` (source lines 259-268): each falsy slot is filled
from the fallback provider; the duration additionally falls back to the
default 60 when the provider returns nothing. -/
def completar_datos (ev : PendingEvent) (fb : Fallback) : PendingEvent :=
  ⟨(if truthyStr ev.title then ev.title else fb.titulo),
   (if truthyDT ev.start then ev.start else fb.fecha),
   ev.end_,
   (if truthyStr ev.location then ev.location else fb.lugar),
   ev.description,
   (if truthyNat ev.duration_min then ev.duration_min
    else some (pyOrNat fb.dur DEFAULT_DURATION_MIN))⟩

/-- The draft as it stands after extraction plus the assembler pass. -/
def assembled (r : Resolver) (texto : Text) (fb : Fallback) : PendingEvent :=
  completar_datos (parse_event_from_text r texto) fb

/-- `confirmar_evento`'s decision (source lines 280-281): the stripped
console reply, lowercased, must start with `s`. -/
def confirmYes (reply : Text) : Bool := hasPre (toL ("s")) (lower reply)

/-- The end instant `create_event` sends to the calendar sink (source
lines 77-82): the explicit end when present, otherwise the start plus
`duration_min or DEFAULT_DURATION_MIN` minutes.  `st` is the (guaranteed
present) start. -/
def eventEnd (st : DateTime) (ev : PendingEvent) : DateTime :=
  match ev.end_ with
  | some e => e
  | none => addMinutes st (pyOrNat ev.duration_min DEFAULT_DURATION_MIN)

/-- Outcome of one pass through the `create` branch of `main`. -/
inductive CreateOutcome
  | incomplete
  | cancelled (ev : PendingEvent)
  | created (ev : PendingEvent)
deriving DecidableEq, Repr

/-- The `create` branch of `main` (source lines 338-355): extract, run the
assembler, reject the draft when start or title is still falsy, then ask
for confirmation; only a confirmed complete draft reaches the calendar
sink. -/
def createFlow (r : Resolver) (texto : Text) (fb : Fallback) (reply : Text) : CreateOutcome :=
  let ev := assembled r texto fb
  if !(truthyDT ev.start) || !(truthyStr ev.title) then .incomplete
  else if confirmYes reply then .created ev
  else .cancelled ev

/-- Outcome of the fall-through branch of `main` for an utterance that is
neither a list nor a create intent. -/
inductive UnknownOutcome
  | helpShown
  | created (ev : PendingEvent)
deriving DecidableEq, Repr

/-- The unknown branch of `main` (source lines 357-372): retry the
utterance as a create; if extraction found a start and the completed draft
has start and title and the user confirms, the event is created, otherwise
the general help message is printed. -/
def unknownFlow (r : Resolver) (texto : Text) (fb : Fallback) (reply : Text) : UnknownOutcome :=
  let ev0 := parse_event_from_text r texto
  if ev0.start.isSome then
    (let ev := completar_datos ev0 fb
     if truthyDT ev.start && truthyStr ev.title && confirmYes reply then .created ev
     else .helpShown)
  else .helpShown

/-- The empty draft. -/
def evEmpty : PendingEvent := ⟨none, none, none, none, none, none⟩

/-- A fallback provider that supplies nothing. -/
def fbEmpty : Fallback := ⟨none, none, none, none⟩

/-- The end-to-end scenario utterance of the spec. -/
def c1text : Text :=
  toL ("agenda una cita mañana a las 3pm con el dentista en zona 10 por 45 minutos")

/-- The start instant the spec's scenario expects: 2024-06-11 15:00 local. -/
def c1start : DateTime := ⟨2024, 6, 11, 15, 0, 0⟩

/-! ## Helper lemmas -/

/-- The extractor writes exactly the resolver result into `start`. -/
theorem pev_start (r : Resolver) (t : Text) : (parse_event_from_text r t).start = r t := rfl

/-- Every branch of the list sub-kind dispatch is a list intent. -/
theorem listSub_mem (r : Resolver) (t : Text) :
    listSub r t = .list_today ∨ listSub r t = .list_tomorrow ∨
    listSub r t = .list_week ∨ listSub r t = .list_date := by
  unfold listSub
  split
  · exact Or.inl rfl
  split
  · exact Or.inr (Or.inl rfl)
  split
  · exact Or.inr (Or.inr (Or.inl rfl))
  split
  · exact Or.inr (Or.inr (Or.inr rfl))
  · exact Or.inl rfl

/-- The list sub-kind dispatch never produces the create intent. -/
theorem listSub_ne_create (r : Resolver) (t : Text) : listSub r t ≠ .create := by
  unfold listSub
  split
  · decide
  split
  · decide
  split
  · decide
  split
  · decide
  · decide

/-- When the guard of the list branch holds, `detect_intent` returns the
result of the sub-kind dispatch. -/
theorem detect_intent_list (r : Resolver) (text : Text)
    (h : listCond (strip (lower text)) = true) :
    detect_intent r text = listSub r (strip (lower text)) := by
  unfold detect_intent
  simp [h]

/-- Sub-kind dispatch when `hoy` is absent and `mañana` is present. -/
theorem listSub_manana (r : Resolver) (t : Text)
    (h1 : subStr (toL ("hoy")) t = false) (h2 : subStr (toL ("mañana")) t = true) :
    listSub r t = .list_tomorrow := by
  unfold listSub
  simp [h1, h2]

/-! ## Claim C1 -/

/-- Claim C1 counterexample: on the spec's end-to-end scenario utterance
the classifier returns `list_tomorrow` (the text starts with `agenda` and
contains `mañana`), not `CreateEvent`; moreover the extracted title is not
`el dentista` and the extracted location is not `zona 10` (both regex
captures run to the end of the string). -/
theorem c1_cex :
    detect_intent (fun _ => none) c1text = .list_tomorrow ∧
    detect_intent (fun _ => none) c1text ≠ .create ∧
    extractTitle c1text ≠ toL ("el dentista") ∧
    extractLoc c1text ≠ some (toL ("zona 10")) := by
  refine ⟨by decide, by decide, by decide, by decide⟩

/-- Claim C1 (amended): for the scenario utterance, with any resolver that
returns 2024-06-11T15:00 local on it, classification yields `list_tomorrow`
(the text starts with `agenda` and contains `mañana`), and extraction
yields `location = "zona 10 por 45 minutos"`, `duration_minutes = 45`,
`start` = 2024-06-11T15:00 local, and
`title = "el dentista en zona 10 por 45 minutos"` (connector-word capture
to end of string, trimmed). -/
theorem c1_amended (r : Resolver) (h : r c1text = some c1start) :
    detect_intent r c1text = .list_tomorrow ∧
    (parse_event_from_text r c1text).location = some (toL ("zona 10 por 45 minutos")) ∧
    (parse_event_from_text r c1text).duration_min = some 45 ∧
    (parse_event_from_text r c1text).start = some c1start ∧
    (parse_event_from_text r c1text).title =
      some (toL ("el dentista en zona 10 por 45 minutos")) := by
  refine ⟨?_, ?_, ?_, h, ?_⟩
  · rw [detect_intent_list r c1text (by decide)]
    exact listSub_manana r _ (by decide) (by decide)
  · show extractLoc c1text = some (toL ("zona 10 por 45 minutos"))
    decide
  · show extractDur c1text = some 45
    decide
  · show some (extractTitle c1text) = some (toL ("el dentista en zona 10 por 45 minutos"))
    decide

/-- Witness for the amended C1 theorem at a concrete resolver. -/
theorem c1_amended_w :
    detect_intent (fun _ => some c1start) c1text = .list_tomorrow ∧
    (parse_event_from_text (fun _ => some c1start) c1text).start = some c1start :=
  ⟨(c1_amended (fun _ => some c1start) rfl).1,
   (c1_amended (fun _ => some c1start) rfl).2.2.2.1⟩

/-! ## Claim C2 -/

/-- Claim C2: any text containing a list-intent vocabulary phrase (in its
lowered, stripped form, as the source checks it) classifies as one of the
four list intents and never as `CreateEvent`, whatever create words or
time patterns it also contains: the list guard is evaluated first. -/
theorem c2_list_priority (r : Resolver) (text : Text) (w : Text)
    (hw : w ∈ INTENT_LIST_WORDS) (hs : subStr w (strip (lower text)) = true) :
    (detect_intent r text = .list_today ∨ detect_intent r text = .list_tomorrow ∨
     detect_intent r text = .list_week ∨ detect_intent r text = .list_date) ∧
    detect_intent r text ≠ .create := by
  have hc : listCond (strip (lower text)) = true := by
    have ha : INTENT_LIST_WORDS.any (fun v => subStr v (strip (lower text))) = true :=
      List.any_eq_true.mpr ⟨w, hw, hs⟩
    unfold listCond
    rw [ha]
    rfl
  rw [detect_intent_list r text hc]
  exact ⟨listSub_mem r _, listSub_ne_create r _⟩

/-- Witness for C2: a text with both a list phrase and a clock time. -/
theorem c2_w :
    (detect_intent (fun _ => none) (toL ("qué debo hacer hoy a las 3pm")) = .list_today ∨
     detect_intent (fun _ => none) (toL ("qué debo hacer hoy a las 3pm")) = .list_tomorrow ∨
     detect_intent (fun _ => none) (toL ("qué debo hacer hoy a las 3pm")) = .list_week ∨
     detect_intent (fun _ => none) (toL ("qué debo hacer hoy a las 3pm")) = .list_date) ∧
    detect_intent (fun _ => none) (toL ("qué debo hacer hoy a las 3pm")) ≠ .create :=
  c2_list_priority (fun _ => none) (toL ("qué debo hacer hoy a las 3pm"))
    (toL ("qué debo hacer")) (by decide) (by decide)

/-! ## Claim C3 -/

/-- Claim C3: a number followed by a minutes-unit word sets the duration
to that number; a number followed by an hours-unit word sets it to the
number times 60; when both patterns occur the minutes form wins because it
is checked first — concretely, "30 min y luego 2 horas" yields 30, not
120, and "llamada de 2 horas" yields 120. -/
theorem c3_duration (r : Resolver) (text : Text) :
    ((searchMin text).isSome = true →
      (parse_event_from_text r text).duration_min = searchMin text) ∧
    (searchMin text = none →
      (parse_event_from_text r text).duration_min = (searchHora text).map (fun m => m * 60)) ∧
    (parse_event_from_text r (toL ("30 min y luego 2 horas"))).duration_min = some 30 ∧
    (parse_event_from_text r (toL ("llamada de 2 horas"))).duration_min = some 120 := by
  refine ⟨?_, ?_, ?_, ?_⟩
  · intro h
    show extractDur text = searchMin text
    rcases hm : searchMin text with _ | n
    · rw [hm] at h
      simp at h
    · simp [extractDur, hm]
  · intro h
    show extractDur text = (searchHora text).map (fun m => m * 60)
    rcases hh : searchHora text with _ | m <;> simp [extractDur, h, hh]
  · show extractDur (toL ("30 min y luego 2 horas")) = some 30
    decide
  · show extractDur (toL ("llamada de 2 horas")) = some 120
    decide

/-- Witness for C3 at concrete texts, discharging both hypotheses. -/
theorem c3_w :
    (parse_event_from_text (fun _ => none) (toL ("30 min y luego 2 horas"))).duration_min =
      searchMin (toL ("30 min y luego 2 horas")) ∧
    (parse_event_from_text (fun _ => none) (toL ("sesión de 2 horas"))).duration_min =
      (searchHora (toL ("sesión de 2 horas"))).map (fun m => m * 60) :=
  ⟨(c3_duration (fun _ => none) (toL ("30 min y luego 2 horas"))).1 (by decide),
   (c3_duration (fun _ => none) (toL ("sesión de 2 horas"))).2.1 (by decide)⟩

/-! ## Claim C4 -/

/-- Zeroing the time of day commutes with moving to the next calendar
day in the fixed-offset zone. -/
theorem midnight_nextDay (d : DateTime) : midnight (nextDay d) = nextDay (midnight d) := by
  unfold nextDay midnight
  by_cases h1 : d.day < daysInMonth d.year d.month
  · simp [h1]
  · by_cases h2 : d.month < 12 <;> simp [h1, h2]

/-- Claim C4: the list ranges have their boundaries at local wall-clock
midnight of the configured zone: today is `[midnight(ref), +1 day)`,
tomorrow `[midnight(ref)+1 day, +2 days)`, week `[midnight(ref), +7 days)`,
date `[midnight(parsed), +1 day)`; in particular at reference
2024-06-10T23:30 local, today's range runs from 2024-06-10T00:00 to
2024-06-11T00:00 in that zone, not shifted by a UTC day boundary. -/
theorem c4_ranges (r : Resolver) (texto : Text) (now pd : DateTime) :
    listRange r texto now .list_today =
      some ⟨midnight now, addDays (midnight now) 1⟩ ∧
    listRange r texto now .list_tomorrow =
      some ⟨addDays (midnight now) 1, addDays (midnight now) 2⟩ ∧
    listRange r texto now .list_week =
      some ⟨midnight now, addDays (midnight now) 7⟩ ∧
    (r texto = some pd → listRange r texto now .list_date =
      some ⟨midnight pd, addDays (midnight pd) 1⟩) ∧
    listRange r texto ⟨2024, 6, 10, 23, 30, 0⟩ .list_today =
      some ⟨⟨2024, 6, 10, 0, 0, 0⟩, ⟨2024, 6, 11, 0, 0, 0⟩⟩ := by
  refine ⟨rfl, ?_, rfl, ?_, rfl⟩
  · show some (⟨midnight (addDays now 1), addDays (midnight (addDays now 1)) 1⟩ : TimeRange) = _
    have h1 : addDays now 1 = nextDay now := rfl
    rw [h1, midnight_nextDay]
    rfl
  · intro h
    show (match r texto with
      | some dt => some (⟨midnight dt, addDays (midnight dt) 1⟩ : TimeRange)
      | none => none) = _
    rw [h]

/-- Witness for C4: the date sub-kind at a concrete parsed date, plus the
concrete zone-correct today range. -/
theorem c4_w :
    listRange (fun _ => some ⟨2024, 9, 12, 14, 30, 0⟩) [] ⟨2024, 6, 10, 23, 30, 0⟩ .list_date =
      some ⟨⟨2024, 9, 12, 0, 0, 0⟩, ⟨2024, 9, 13, 0, 0, 0⟩⟩ ∧
    listRange (fun _ => some ⟨2024, 9, 12, 14, 30, 0⟩) [] ⟨2024, 6, 10, 23, 30, 0⟩ .list_today =
      some ⟨⟨2024, 6, 10, 0, 0, 0⟩, ⟨2024, 6, 11, 0, 0, 0⟩⟩ :=
  ⟨(c4_ranges (fun _ => some ⟨2024, 9, 12, 14, 30, 0⟩) [] ⟨2024, 6, 10, 23, 30, 0⟩
      ⟨2024, 9, 12, 14, 30, 0⟩).2.2.2.1 rfl,
   (c4_ranges (fun _ => some ⟨2024, 9, 12, 14, 30, 0⟩) [] ⟨2024, 6, 10, 23, 30, 0⟩
      ⟨2024, 9, 12, 14, 30, 0⟩).2.2.2.2⟩

/-! ## Claim C5 -/

/-- Claim C5: after the assembler pass, the create flow proceeds past the
completeness gate (is not rejected as "insufficient information") exactly
when both start and title are (truthily) present; no exception is modelled
anywhere — the rejection is the ordinary `incomplete` outcome — and the
calendar sink only ever receives drafts with start and title present, in
the create branch and in the unknown-retry branch alike. -/
theorem c5_gate (r : Resolver) (texto : Text) (fb : Fallback) (reply : Text) :
    (createFlow r texto fb reply ≠ .incomplete ↔
      (truthyDT (assembled r texto fb).start = true ∧
       truthyStr (assembled r texto fb).title = true)) ∧
    (∀ d, createFlow r texto fb reply = .created d →
      truthyDT d.start = true ∧ truthyStr d.title = true) ∧
    (∀ d, unknownFlow r texto fb reply = .created d →
      truthyDT d.start = true ∧ truthyStr d.title = true) := by
  have hflow : createFlow r texto fb reply =
      (if !(truthyDT (assembled r texto fb).start) || !(truthyStr (assembled r texto fb).title)
       then CreateOutcome.incomplete
       else if confirmYes reply then .created (assembled r texto fb)
       else .cancelled (assembled r texto fb)) := rfl
  have huf : unknownFlow r texto fb reply =
      (if (parse_event_from_text r texto).start.isSome then
        (if truthyDT (assembled r texto fb).start && truthyStr (assembled r texto fb).title
            && confirmYes reply
         then UnknownOutcome.created (assembled r texto fb) else .helpShown)
       else .helpShown) := rfl
  refine ⟨?_, ?_, ?_⟩
  · rw [hflow]
    cases ha : truthyDT (assembled r texto fb).start <;>
      cases hb : truthyStr (assembled r texto fb).title <;> simp
    split <;> simp
  · intro d hd
    rw [hflow] at hd
    cases ha : truthyDT (assembled r texto fb).start <;> rw [ha] at hd
    · simp at hd
    · cases hb : truthyStr (assembled r texto fb).title <;> rw [hb] at hd
      · simp at hd
      · cases hy : confirmYes reply <;> rw [hy] at hd <;> simp at hd
        subst hd
        exact ⟨ha, hb⟩
  · intro d hd
    rw [huf] at hd
    cases h0 : (parse_event_from_text r texto).start.isSome <;> rw [h0] at hd
    · simp at hd
    · cases hc : truthyDT (assembled r texto fb).start &&
          truthyStr (assembled r texto fb).title && confirmYes reply <;> rw [hc] at hd
      · simp at hd
      · simp at hd
        subst hd
        simp only [Bool.and_eq_true] at hc
        exact ⟨hc.1.1, hc.1.2⟩

/-- Witness for C5: a completed draft passes the gate; an all-empty
extraction with an empty fallback is rejected as incomplete. -/
theorem c5_w :
    createFlow (fun _ => none) (toL ("hola"))
      ⟨some ⟨2024, 6, 11, 9, 0, 0⟩, none, none, none⟩ (toL ("s")) ≠ .incomplete ∧
    (truthyDT (assembled (fun _ => some c1start) c1text fbEmpty).start = true ∧
     truthyStr (assembled (fun _ => some c1start) c1text fbEmpty).title = true) :=
  ⟨(c5_gate (fun _ => none) (toL ("hola"))
      ⟨some ⟨2024, 6, 11, 9, 0, 0⟩, none, none, none⟩ (toL ("s"))).1.mpr
        ⟨by decide, by decide⟩,
   (c5_gate (fun _ => some c1start) c1text fbEmpty (toL ("s"))).2.1
      (assembled (fun _ => some c1start) c1text fbEmpty) (by decide)⟩

/-! ## Claim C6 -/

/-- Claim C6 counterexample: the assembler's fallback pass does write the
default 60 into the draft's `duration_min` field when both extraction and
the interactive fallback provide nothing, contradicting the claim that no
operation ever writes the default into the field. -/
theorem c6_cex : (completar_datos evEmpty fbEmpty).duration_min = some 60 := by decide

/-- Claim C6 (amended): the default duration is applied at finalization —
the effective end is `start + (duration_min or 60)` when no explicit end is
present — and extraction never writes the default (no duration patterns
leave the field unset); however the assembler's fallback pass does write 60
into `duration_min` itself whenever the draft's duration is falsy and the
interactive fallback returns nothing. -/
theorem c6_amended (st : DateTime) (ev : PendingEvent) (r : Resolver) (text : Text) :
    (ev.end_ = none →
      eventEnd st ev = addMinutes st (pyOrNat ev.duration_min DEFAULT_DURATION_MIN)) ∧
    (searchMin text = none → searchHora text = none →
      (parse_event_from_text r text).duration_min = none) ∧
    (∀ ev2 fb, truthyNat ev2.duration_min = false → fb.dur = none →
      (completar_datos ev2 fb).duration_min = some 60) ∧
    eventEnd ⟨2024, 6, 11, 15, 0, 0⟩
      ⟨some (toL ("x")), some ⟨2024, 6, 11, 15, 0, 0⟩, none, none, none, none⟩ =
        ⟨2024, 6, 11, 16, 0, 0⟩ := by
  refine ⟨?_, ?_, ?_, by decide⟩
  · intro h
    unfold eventEnd
    rw [h]
  · intro h1 h2
    show extractDur text = none
    simp [extractDur, h1, h2]
  · intro ev2 fb h1 h2
    unfold completar_datos
    rw [h1]
    simp [h2, pyOrNat, DEFAULT_DURATION_MIN]

/-- Witness for the amended C6 theorem at concrete inputs. -/
theorem c6_w :
    eventEnd ⟨2024, 6, 11, 15, 0, 0⟩
        ⟨some (toL ("x")), some ⟨2024, 6, 11, 15, 0, 0⟩, none, none, none, some 45⟩ =
      addMinutes ⟨2024, 6, 11, 15, 0, 0⟩
        (pyOrNat (some 45) DEFAULT_DURATION_MIN) ∧
    (parse_event_from_text (fun _ => none) (toL ("hola"))).duration_min = none ∧
    (completar_datos evEmpty fbEmpty).duration_min = some 60 :=
  ⟨(c6_amended ⟨2024, 6, 11, 15, 0, 0⟩
      ⟨some (toL ("x")), some ⟨2024, 6, 11, 15, 0, 0⟩, none, none, none, some 45⟩
      (fun _ => none) (toL ("hola"))).1 rfl,
   (c6_amended ⟨2024, 6, 11, 15, 0, 0⟩
      ⟨some (toL ("x")), some ⟨2024, 6, 11, 15, 0, 0⟩, none, none, none, some 45⟩
      (fun _ => none) (toL ("hola"))).2.1 (by decide) (by decide),
   (c6_amended ⟨2024, 6, 11, 15, 0, 0⟩
      ⟨some (toL ("x")), some ⟨2024, 6, 11, 15, 0, 0⟩, none, none, none, some 45⟩
      (fun _ => none) (toL ("hola"))).2.2.1 evEmpty fbEmpty rfl rfl⟩

/-! ## Claim C7 -/

/-- The title slot when the connector regex matches. -/
theorem extractTitle_some (t : Text) (s : Text) (h : searchTitle t = some s) :
    extractTitle t = if strip s = [] then (strip t).take 30 else strip s := by
  unfold extractTitle
  rw [h]

/-- The title slot when the connector regex does not match. -/
theorem extractTitle_none (t : Text) (h : searchTitle t = none) :
    extractTitle t = (strip t).take 30 := by
  unfold extractTitle
  rw [h]

/-- A positive-length take of a non-empty list is non-empty. -/
theorem take_pos_ne_nil : ∀ (l : Text) (n : Nat), l ≠ [] → 0 < n → l.take n ≠ []
  | [], _, h, _ => absurd rfl h
  | _ :: _, 0, _, h2 => absurd h2 (by decide)
  | _ :: _, n + 1, _, _ => by simp [List.take]

/-- Claim C7 counterexample: the whitespace-only input `" "` is non-empty,
yet the extracted title is the empty string (the fallback is the first 30
characters of the stripped text, which is empty). -/
theorem c7_cex : toL (" ") ≠ ([] : Text) ∧ extractTitle (toL (" ")) = [] :=
  ⟨by decide, by decide⟩

/-- Claim C7 (amended): title extraction is total; when the connector
regex matches, the title is the trimmed capture if that trim is non-empty
and otherwise falls back, like the no-connector case, to the first 30
characters of the trimmed input (`text.strip()[:30]` exactly); the result
is non-empty for every input whose trimmed text is non-empty. -/
theorem c7_amended (r : Resolver) (text : Text) :
    (∀ s, searchTitle text = some s →
      (parse_event_from_text r text).title =
        some (if strip s = [] then (strip text).take 30 else strip s)) ∧
    (searchTitle text = none →
      (parse_event_from_text r text).title = some ((strip text).take 30)) ∧
    (strip text ≠ [] → extractTitle text ≠ []) := by
  refine ⟨?_, ?_, ?_⟩
  · intro s h
    show some (extractTitle text) = _
    rw [extractTitle_some text s h]
  · intro h
    show some (extractTitle text) = _
    rw [extractTitle_none text h]
  · intro hne
    rcases h : searchTitle text with _ | s
    · rw [extractTitle_none text h]
      exact take_pos_ne_nil _ 30 hne (by decide)
    · rw [extractTitle_some text s h]
      by_cases hs : strip s = []
      · rw [if_pos hs]
        exact take_pos_ne_nil _ 30 hne (by decide)
      · rw [if_neg hs]
        exact hs

/-- Witness for the amended C7 theorem at concrete inputs. -/
theorem c7_w :
    (parse_event_from_text (fun _ => none) c1text).title =
      some (if strip (toL ("el dentista en zona 10 por 45 minutos")) = []
            then (strip c1text).take 30
            else strip (toL ("el dentista en zona 10 por 45 minutos"))) ∧
    (parse_event_from_text (fun _ => none) (toL ("hola"))).title =
      some ((strip (toL ("hola"))).take 30) ∧
    extractTitle (toL ("hola")) ≠ [] :=
  ⟨(c7_amended (fun _ => none) c1text).1
      (toL ("el dentista en zona 10 por 45 minutos")) (by decide),
   (c7_amended (fun _ => none) (toL ("hola"))).2.1 (by decide),
   (c7_amended (fun _ => none) (toL ("hola"))).2.2 (by decide)⟩

/-! ## Claim C8 -/

/-- Claim C8: temporal-resolution failure is non-fatal — when the resolver
returns nothing the slot extractor leaves `start` unset and still returns a
draft, and the classifier's list path, when none of the sub-kind keywords
occur and its date parse fails, defaults to `list_today` rather than
aborting. -/
theorem c8_nonfatal (r : Resolver) (text : Text) :
    (r text = none → (parse_event_from_text r text).start = none) ∧
    (listCond (strip (lower text)) = true →
     subStr (toL ("hoy")) (strip (lower text)) = false →
     subStr (toL ("mañana")) (strip (lower text)) = false →
     subStr (toL ("semana")) (strip (lower text)) = false →
     subStr (toL ("esta semana")) (strip (lower text)) = false →
     r (strip (lower text)) = none →
     detect_intent r text = .list_today) := by
  constructor
  · intro h
    rw [pev_start, h]
  · intro hc h1 h2 h3 h4 h5
    rw [detect_intent_list r text hc]
    unfold listSub
    rw [h1, h2, h3, h4, h5]
    simp

/-- Witness for C8: a list utterance with no sub-kind keyword and a
failing resolver lists today. -/
theorem c8_w :
    (parse_event_from_text (fun _ => none) (toL ("lista pendientes"))).start = none ∧
    detect_intent (fun _ => none) (toL ("lista pendientes")) = .list_today :=
  ⟨(c8_nonfatal (fun _ => none) (toL ("lista pendientes"))).1 rfl,
   (c8_nonfatal (fun _ => none) (toL ("lista pendientes"))).2 (by decide) (by decide)
     (by decide) (by decide) (by decide) rfl⟩

/-! ## Claim C9 -/

/-- Claim C9 counterexample: the utterance `mañana` is classified
`unknown`, yet the session does not merely surface a help message — the
unknown branch retries it as a create, and with a resolver that parses the
word and a confirming reply the external create operation is invoked on
the completed draft. -/
theorem c9_cex :
    detect_intent (fun _ => some ⟨2024, 6, 11, 9, 0, 0⟩) (toL ("mañana")) = .unknown ∧
    unknownFlow (fun _ => some ⟨2024, 6, 11, 9, 0, 0⟩) (toL ("mañana")) fbEmpty (toL ("s")) =
      .created ⟨some (toL ("mañana")), some ⟨2024, 6, 11, 9, 0, 0⟩, none, none, none,
        some 60⟩ :=
  ⟨by decide, by decide⟩

/-- Claim C9 (amended): for an utterance classified `unknown` the session
first retries it as a create — when the extractor finds no start, or the
user does not confirm, a help message is the outcome (no exception, no
list or create operation); but when the extractor finds a start, the
completed draft has truthy start and title, and the user confirms, the
external create operation is invoked on that draft instead of showing
help. -/
theorem c9_amended (r : Resolver) (texto : Text) (fb : Fallback) (reply : Text) :
    ((parse_event_from_text r texto).start = none →
      unknownFlow r texto fb reply = .helpShown) ∧
    (confirmYes reply = false → unknownFlow r texto fb reply = .helpShown) ∧
    ((parse_event_from_text r texto).start ≠ none →
      truthyDT (assembled r texto fb).start = true →
      truthyStr (assembled r texto fb).title = true →
      confirmYes reply = true →
      unknownFlow r texto fb reply = .created (assembled r texto fb)) := by
  have huf : unknownFlow r texto fb reply =
      (if (parse_event_from_text r texto).start.isSome then
        (if truthyDT (assembled r texto fb).start && truthyStr (assembled r texto fb).title
            && confirmYes reply
         then UnknownOutcome.created (assembled r texto fb) else .helpShown)
       else .helpShown) := rfl
  refine ⟨?_, ?_, ?_⟩
  · intro h
    rw [huf, h]
    simp
  · intro h
    rw [huf, h]
    simp
  · intro h0 h1 h2 h3
    rw [Option.ne_none_iff_isSome] at h0
    rw [huf, h0, h1, h2, h3]
    simp

/-- Witness for the amended C9 theorem at concrete inputs. -/
theorem c9_w :
    unknownFlow (fun _ => none) (toL ("hola")) fbEmpty (toL ("s")) = .helpShown ∧
    unknownFlow (fun _ => some ⟨2024, 6, 11, 9, 0, 0⟩) (toL ("cita con ana")) fbEmpty
      (toL ("no")) = .helpShown ∧
    unknownFlow (fun _ => some ⟨2024, 6, 11, 9, 0, 0⟩) (toL ("cita con ana")) fbEmpty
      (toL ("s")) = .created (assembled (fun _ => some ⟨2024, 6, 11, 9, 0, 0⟩)
        (toL ("cita con ana")) fbEmpty) :=
  ⟨(c9_amended (fun _ => none) (toL ("hola")) fbEmpty (toL ("s"))).1 rfl,
   (c9_amended (fun _ => some ⟨2024, 6, 11, 9, 0, 0⟩) (toL ("cita con ana")) fbEmpty
      (toL ("no"))).2.1 (by decide),
   (c9_amended (fun _ => some ⟨2024, 6, 11, 9, 0, 0⟩) (toL ("cita con ana")) fbEmpty
      (toL ("s"))).2.2 (by decide) (by decide) (by decide) (by decide)⟩

/-! ## Claim C10 -/

/-- Claim C10: in both create flows (the `create` classification and the
unknown-intent retry) the external calendar create operation is invoked
only when the confirmation reply, lowercased, starts with `s`; any other
reply (including the empty one) cancels, and the drafted event is
discarded without any external call. -/
theorem c10_confirm (r : Resolver) (texto : Text) (fb : Fallback) (reply : Text) :
    (∀ d, createFlow r texto fb reply = .created d →
      hasPre (toL ("s")) (lower reply) = true) ∧
    (∀ d, unknownFlow r texto fb reply = .created d →
      hasPre (toL ("s")) (lower reply) = true) ∧
    (hasPre (toL ("s")) (lower reply) = false →
      (∀ d, createFlow r texto fb reply ≠ .created d) ∧
      unknownFlow r texto fb reply = .helpShown) := by
  have key1 : ∀ d, createFlow r texto fb reply = .created d → confirmYes reply = true := by
    intro d hd
    cases hy : confirmYes reply
    · exfalso
      have hflow : createFlow r texto fb reply =
          (if !(truthyDT (assembled r texto fb).start) || !(truthyStr (assembled r texto fb).title)
           then CreateOutcome.incomplete
           else if confirmYes reply then .created (assembled r texto fb)
           else .cancelled (assembled r texto fb)) := rfl
      rw [hflow, hy] at hd
      split at hd <;> simp at hd
    · rfl
  have key2 : ∀ d, unknownFlow r texto fb reply = .created d → confirmYes reply = true := by
    intro d hd
    cases hy : confirmYes reply
    · exfalso
      have huf : unknownFlow r texto fb reply =
          (if (parse_event_from_text r texto).start.isSome then
            (if truthyDT (assembled r texto fb).start && truthyStr (assembled r texto fb).title
                && confirmYes reply
             then UnknownOutcome.created (assembled r texto fb) else .helpShown)
           else .helpShown) := rfl
      rw [huf, hy] at hd
      split at hd <;> simp at hd
    · rfl
  refine ⟨key1, key2, ?_⟩
  intro h
  have hyf : confirmYes reply = false := h
  constructor
  · intro d hd
    have := key1 d hd
    rw [hyf] at this
    simp at this
  · rcases hu : unknownFlow r texto fb reply with _ | d
    · rfl
    · have := key2 d hu
      rw [hyf] at this
      simp at this

/-- Witness for C10: an affirmative reply reaches the sink through the
unknown-retry flow; a negative reply yields the help outcome with no
external call. -/
theorem c10_w :
    hasPre (toL ("s")) (lower (toL ("Sí"))) = true ∧
    unknownFlow (fun _ => some ⟨2024, 7, 2, 10, 0, 0⟩) (toL ("cita para bailar")) fbEmpty
      (toL ("no")) = .helpShown :=
  ⟨(c10_confirm (fun _ => some ⟨2024, 7, 2, 10, 0, 0⟩) (toL ("cita para bailar")) fbEmpty
      (toL ("Sí"))).2.1 (assembled (fun _ => some ⟨2024, 7, 2, 10, 0, 0⟩)
        (toL ("cita para bailar")) fbEmpty) (by decide),
   ((c10_confirm (fun _ => some ⟨2024, 7, 2, 10, 0, 0⟩) (toL ("cita para bailar")) fbEmpty
      (toL ("no"))).2.2 (by decide)).2⟩
